import Mathlib

/- Verification of the snowball systematic-literature-review engine.
   Strings from the Python source are embedded as lists of characters
   (`Str`); machine-level concerns do not arise (all arithmetic in the
   program is small-integer bookkeeping, embedded as `Nat` / `Int`).
   The repository ships only the CLI, the TUI and the test suite; the
   library modules (models, filter engine, identity resolver, snowball
   engine, scoring) are reconstructed from the specification and from
   the behaviour pinned down by the shipped tests, as marked on each
   definition. -/

abbrev Str := List Char

def lowerStr (s : Str) : Str := s.map Char.toLower

/-- PaperStatus enumeration of `snowball.models` (string-valued enum with
values "pending", "included", "excluded", "maybe"). -/
inductive PaperStatus
  | pending
  | included
  | excluded
  | maybe
deriving DecidableEq, Repr

/-- PaperSource enumeration of `snowball.models` (values "seed",
"backward", "forward"). -/
inductive PaperSource
  | seed
  | backward
  | forward
deriving DecidableEq, Repr

/-- ExclusionType enumeration of `snowball.models` (values "auto",
"manual"). -/
inductive ExclusionType
  | auto
  | manual
deriving DecidableEq, Repr

/-- Author model: name plus optional ordered affiliations. -/
structure Author where
  name : Str
  affiliations : Option (List Str) := none
deriving DecidableEq, Repr

/-- Venue model: all fields optional. -/
structure Venue where
  name : Option Str := none
  type : Option Str := none
  year : Option Int := none
  volume : Option Str := none
  issue : Option Str := none
  pages : Option Str := none
deriving DecidableEq, Repr

/-- Modelled from the spec: the Paper entity of `snowball.models`
(the module is not in the repository snapshot; fields and defaults
follow spec section 3 and the shipped model tests). The opaque
`raw_data` provider payload is embedded as a string-to-string map. -/
structure Paper where
  id : Str
  title : Str
  source : PaperSource
  doi : Option Str := none
  arxiv_id : Option Str := none
  authors : List Author := []
  venue : Option Venue := none
  year : Option Int := none
  citation_count : Option Nat := none
  influential_citation_count : Option Nat := none
  abstract : Option Str := none
  notes : Str := []
  tags : List Str := []
  status : PaperStatus := PaperStatus.pending
  exclusion_type : Option ExclusionType := none
  snowball_iteration : Nat := 0
  references : List Str := []
  citations : List Str := []
  raw_data : List (Str × Str) := []
deriving DecidableEq, Repr

/-- FilterCriteria model: optional inclusive bounds plus keyword lists. -/
structure FilterCriteria where
  min_year : Option Int := none
  max_year : Option Int := none
  min_citations : Option Nat := none
  max_citations : Option Nat := none
  min_influential_citations : Option Nat := none
  keywords : List Str := []
  excluded_keywords : List Str := []
deriving DecidableEq, Repr

/-- IterationStats model: per-iteration bookkeeping counters; the
timestamp is embedded as its rendered string. -/
structure IterationStats where
  iteration : Nat
  discovered : Nat := 0
  backward : Nat := 0
  forward : Nat := 0
  auto_excluded : Nat := 0
  for_review : Nat := 0
  manual_included : Nat := 0
  manual_excluded : Nat := 0
  manual_maybe : Nat := 0
  reviewed : Nat := 0
  timestamp : Str := []
deriving DecidableEq, Repr

/-- ReviewProject model: project metadata, iteration counter and the
iteration-number-keyed statistics map (embedded as an association
list). -/
structure ReviewProject where
  name : Str
  description : Str := []
  max_iterations : Nat := 1
  current_iteration : Nat := 0
  filter_criteria : FilterCriteria := {}
  seed_paper_ids : List Str := []
  iteration_stats : List (Nat × IterationStats) := []
  created_at : Str := []
deriving DecidableEq, Repr

/- Decimal rendering of dictionary keys: `model_dump(mode := json)`
renders the integer keys of `iteration_stats` as decimal strings and
`model_validate` parses them back. -/

def digitChar (d : Nat) : Char := Char.ofNat (48 + d)

def charDigit (c : Char) : Option Nat :=
  if 48 ≤ c.toNat ∧ c.toNat ≤ 57 then some (c.toNat - 48) else none

/-- Decimal string of a natural number (most-significant digit first),
as produced for JSON object keys. -/
def natKeyStr (n : Nat) : Str :=
  if n = 0 then [ '0' ] else (Nat.digits 10 n).reverse.map digitChar

def keyStrNatAux : Nat → Str → Option Nat
  | acc, [] => some acc
  | acc, c :: cs =>
    match charDigit c with
    | none => none
    | some d => keyStrNatAux (acc * 10 + d) cs

/-- Parse a decimal string back to a natural number; `none` on the
empty string or any non-digit character. -/
def keyStrNat : Str → Option Nat
  | [] => none
  | c :: cs => keyStrNatAux 0 (c :: cs)

theorem charDigit_digitChar (d : Nat) (h : d < 10) :
    charDigit (digitChar d) = some d := by
  interval_cases d <;> decide

theorem keyStrNatAux_map (ds : List Nat) :
    ∀ acc, (∀ d ∈ ds, d < 10) →
      keyStrNatAux acc (ds.map digitChar) =
        some (ds.foldl (fun a d => a * 10 + d) acc) := by
  induction ds with
  | nil => intro acc _; rfl
  | cons d t ih =>
    intro acc hlt
    have hd : d < 10 := hlt d (List.mem_cons_self d t)
    simp only [List.map_cons, keyStrNatAux, charDigit_digitChar d hd,
      List.foldl_cons]
    exact ih (acc * 10 + d) (fun x hx => hlt x (List.mem_cons_of_mem d hx))

theorem foldl_reverse_ofDigits (ds : List Nat) :
    ∀ acc, ds.reverse.foldl (fun a d => a * 10 + d) acc =
      acc * 10 ^ ds.length + Nat.ofDigits 10 ds := by
  induction ds with
  | nil => intro acc; simp [Nat.ofDigits]
  | cons d t ih =>
    intro acc
    simp only [List.reverse_cons, List.foldl_append, List.foldl_cons,
      List.foldl_nil, ih acc, Nat.ofDigits_cons, List.length_cons]
    ring

theorem keyStrNat_natKeyStr (n : Nat) : keyStrNat (natKeyStr n) = some n := by
  by_cases h0 : n = 0
  · subst h0; decide
  · have hne : Nat.digits 10 n ≠ [] := Nat.digits_ne_nil_iff_ne_zero.mpr h0
    have hrev : (Nat.digits 10 n).reverse ≠ [] := by
      simpa using hne
    unfold natKeyStr
    rw [if_neg h0]
    have hlt : ∀ d ∈ (Nat.digits 10 n).reverse, d < 10 := by
      intro d hd
      exact Nat.digits_lt_base (by norm_num) (List.mem_reverse.mp hd)
    have hmain := keyStrNatAux_map (Nat.digits 10 n).reverse 0 hlt
    have hfold := foldl_reverse_ofDigits (Nat.digits 10 n) 0
    cases hmap : (Nat.digits 10 n).reverse.map digitChar with
    | nil =>
      exact absurd (List.map_eq_nil_iff.mp hmap) hrev
    | cons c cs =>
      rw [hmap] at hmain
      show keyStrNatAux 0 (c :: cs) = some n
      rw [hmain, hfold]
      simp [Nat.ofDigits_digits]

/- ===================== FilterEngine ===================== -/

/-- Searchable text of a paper: lower-cased title and abstract. -/
def paperText (p : Paper) : Str :=
  lowerStr p.title ++ ( ' ' :: lowerStr (p.abstract.getD []))

/-- Modelled from the spec: keyword presence test of the FilterEngine
(the filter module is not in the repository snapshot) — the lower-cased
keyword occurs in the paper's title or abstract. -/
def keywordPresent (k : Str) (p : Paper) : Bool :=
  decide ((lowerStr k) <:+: paperText p)

/-- Rule 1 of `classify`: some excluded keyword occurs in
title or abstract. -/
def excludedKeywordRule (p : Paper) (c : FilterCriteria) : Bool :=
  c.excluded_keywords.any (fun k => keywordPresent k p)

/-- Rule 2 of `classify`: the year is present and lies outside the
inclusive range given by `min_year` / `max_year`. -/
def yearRule (p : Paper) (c : FilterCriteria) : Bool :=
  match p.year with
  | none => false
  | some y =>
    (match c.min_year with | none => false | some m => decide (y < m)) ||
    (match c.max_year with | none => false | some m => decide (m < y))

/-- Rule 3 of `classify`: the citation count is present and below
`min_citations`; a missing count never fires the rule. -/
def minCitationsRule (p : Paper) (c : FilterCriteria) : Bool :=
  match p.citation_count, c.min_citations with
  | some n, some m => decide (n < m)
  | _, _ => false

/-- Rule 4 of `classify`: the influential-citation count is present
and below `min_influential_citations`. -/
def minInfluentialRule (p : Paper) (c : FilterCriteria) : Bool :=
  match p.influential_citation_count, c.min_influential_citations with
  | some n, some m => decide (n < m)
  | _, _ => false

/-- Rule 5 of `classify`: the required-keyword set is non-empty and no
keyword in it occurs in title or abstract. -/
def keywordsRule (p : Paper) (c : FilterCriteria) : Bool :=
  !c.keywords.isEmpty && !(c.keywords.any (fun k => keywordPresent k p))

/-- Verdict of the FilterEngine. -/
inductive Verdict
  | AutoExclude
  | ForReview
deriving DecidableEq, Repr

/-- Modelled from the spec: the pure `classify(paper, criteria)`
decision function of the FilterEngine (module not in the repository
snapshot), evaluating the five exclusion rules in the fixed spec order,
first match wins, otherwise ForReview. -/
def classify (p : Paper) (c : FilterCriteria) : Verdict :=
  if excludedKeywordRule p c then Verdict.AutoExclude
  else if yearRule p c then Verdict.AutoExclude
  else if minCitationsRule p c then Verdict.AutoExclude
  else if minInfluentialRule p c then Verdict.AutoExclude
  else if keywordsRule p c then Verdict.AutoExclude
  else Verdict.ForReview

/- ===================== IdentityResolver ===================== -/

/-- URL wrappings (and the `doi:` scheme) that DOI normalization
strips, lower-case, longest-scheme first. -/
def doiWraps : List Str :=
  [ "https://doi.org/".data, "http://doi.org/".data,
    "https://dx.doi.org/".data, "http://dx.doi.org/".data,
    "doi:".data ]

/-- Strip the first matching wrap from the front of a string. -/
def stripWraps : List Str → Str → Str
  | [], s => s
  | w :: ws, s => if w <+: s then s.drop w.length else stripWraps ws s

/-- Modelled from the spec: DOI normalization of the IdentityResolver
(module not in the repository snapshot) — lower-case, then strip a URL
or scheme wrapping. -/
def normalizeDoi (d : Str) : Str := stripWraps doiWraps (lowerStr d)

/-- Modelled from the spec: arXiv-id normalization — lower-case, then
strip an `arxiv:` scheme wrapping. -/
def normalizeArxiv (a : Str) : Str :=
  stripWraps [ "arxiv:".data ] (lowerStr a)

/-- Modelled from the spec: title normalization — lower-case with
punctuation and whitespace collapsed (non-alphanumeric runs removed). -/
def normalizeTitle (t : Str) : Str :=
  (lowerStr t).filter Char.isAlphanum

/-- Canonical identity key: DOI takes priority over arXiv id, which
takes priority over normalized title plus year. -/
inductive CanonicalKey
  | doi (d : Str)
  | arxiv (a : Str)
  | titleYear (t : Str) (y : Option Int)
deriving DecidableEq, Repr

/-- Externally fetched bibliographic record, normalized across
providers (not yet a project member). -/
structure Record where
  title : Str
  doi : Option Str := none
  arxiv_id : Option Str := none
  year : Option Int := none
  citation_count : Option Nat := none
  influential_citation_count : Option Nat := none
  abstract : Option Str := none
deriving DecidableEq, Repr

/-- Modelled from the spec: `canonicalize(record)` of the
IdentityResolver — priority order normalized DOI, then normalized
arXiv id, then normalized title plus year. -/
def canonicalize (r : Record) : CanonicalKey :=
  match r.doi with
  | some d => CanonicalKey.doi (normalizeDoi d)
  | none =>
    match r.arxiv_id with
    | some a => CanonicalKey.arxiv (normalizeArxiv a)
    | none => CanonicalKey.titleYear (normalizeTitle r.title) r.year

/-- Canonical key of a project paper, computed from the same fields. -/
def paperKey (p : Paper) : CanonicalKey :=
  match p.doi with
  | some d => CanonicalKey.doi (normalizeDoi d)
  | none =>
    match p.arxiv_id with
    | some a => CanonicalKey.arxiv (normalizeArxiv a)
    | none => CanonicalKey.titleYear (normalizeTitle p.title) p.year

/- ===================== Scoring ===================== -/

/-- Clamp a raw relevance score into the closed interval [0, 1]
(scores are embedded as rationals). -/
def clampScore (s : ℚ) : ℚ := max 0 (min 1 s)

/-- Modelled from the spec: `score_papers(query, papers,
progress_callback?)` of the scoring collaborator (the scoring module is
not in the repository snapshot; behaviour follows the spec contract and
the shipped scorer tests). The provider interaction is abstracted as an
optional list of raw model scores: `none` stands for any internal error
(API failure or an unparseable model response) and yields score 0 for
every paper; raw scores are matched to papers by position, a missing
position defaulting to 0, and every score is clamped into [0, 1].
Embedded as a Lean function the operation is total, so it never
raises. -/
def score_papers (query : Str) (resp : Option (List ℚ)) (papers : List Paper) :
    List (Paper × ℚ) :=
  match resp with
  | none => papers.map (fun p => (p, 0))
  | some raw => papers.enum.map (fun ip => (ip.2, clampScore ((raw.get? ip.1).getD 0)))

/-- Modelled from the spec: the `progress_callback(current, total)`
invocations of one `score_papers` call, one per processed paper, with
`total` the number of input papers. -/
def progressCalls (papers : List Paper) : List (Nat × Nat) :=
  (List.range papers.length).map (fun i => (i + 1, papers.length))

/-- One `score_papers` call together with the progress-callback
invocations it performs. -/
def score_papers_run (query : Str) (resp : Option (List ℚ)) (papers : List Paper) :
    List (Paper × ℚ) × List (Nat × Nat) :=
  (score_papers query resp papers, progressCalls papers)

/-- Result type of the `get_scorer` factory: the constructed scorer,
an LLM scorer carrying its forwarded `model` option. -/
inductive Scorer
  | tfidf
  | llm (model : Str)
deriving DecidableEq, Repr

/-- Modelled from the spec and the shipped scorer tests: the
`get_scorer(method, **kwargs)` factory of `snowball.scoring` (module
not in the repository snapshot) — "tfidf" and "llm" construct the
matching scorer (forwarding the `model` option to the LLM scorer), any
other method raises a ValueError whose message names the method and
lists the known methods. -/
def get_scorer (method : Str) (model : Str) : Except Str Scorer :=
  if method = "tfidf".data then Except.ok Scorer.tfidf
  else if method = "llm".data then Except.ok (Scorer.llm model)
  else Except.error ( "Unknown scoring method: ".data ++ method ++
    ". Available methods: tfidf, llm".data)

/- ===================== Serialization ===================== -/

/-- String rendering of PaperStatus, as in `model_dump(mode=json)`. -/
def statusToStr : PaperStatus → Str
  | PaperStatus.pending => "pending".data
  | PaperStatus.included => "included".data
  | PaperStatus.excluded => "excluded".data
  | PaperStatus.maybe => "maybe".data

/-- Parse a PaperStatus from its string value; `none` on an unknown
value (a validation error). -/
def statusFromStr (s : Str) : Option PaperStatus :=
  if s = "pending".data then some PaperStatus.pending
  else if s = "included".data then some PaperStatus.included
  else if s = "excluded".data then some PaperStatus.excluded
  else if s = "maybe".data then some PaperStatus.maybe
  else none

/-- String rendering of PaperSource. -/
def sourceToStr : PaperSource → Str
  | PaperSource.seed => "seed".data
  | PaperSource.backward => "backward".data
  | PaperSource.forward => "forward".data

/-- Parse a PaperSource from its string value. -/
def sourceFromStr (s : Str) : Option PaperSource :=
  if s = "seed".data then some PaperSource.seed
  else if s = "backward".data then some PaperSource.backward
  else if s = "forward".data then some PaperSource.forward
  else none

/-- String rendering of ExclusionType. -/
def exclusionToStr : ExclusionType → Str
  | ExclusionType.auto => "auto".data
  | ExclusionType.manual => "manual".data

/-- Parse an ExclusionType from its string value. -/
def exclusionFromStr (s : Str) : Option ExclusionType :=
  if s = "auto".data then some ExclusionType.auto
  else if s = "manual".data then some ExclusionType.manual
  else none

/-- JSON-mode dump of a Paper: every field keeps its JSON-compatible
value, while the three enum fields are rendered as their string enum
values (a nullable enum stays nullable). -/
structure PaperJson where
  id : Str
  title : Str
  source : Str
  doi : Option Str
  arxiv_id : Option Str
  authors : List Author
  venue : Option Venue
  year : Option Int
  citation_count : Option Nat
  influential_citation_count : Option Nat
  abstract : Option Str
  notes : Str
  tags : List Str
  status : Str
  exclusion_type : Option Str
  snowball_iteration : Nat
  references : List Str
  citations : List Str
  raw_data : List (Str × Str)
deriving DecidableEq, Repr

/-- Modelled from the spec and the shipped model tests:
`Paper.model_dump(mode=json)` — the enum fields `status`, `source` and
`exclusion_type` are rendered as their string values. -/
def dumpPaper (p : Paper) : PaperJson :=
  { id := p.id, title := p.title, source := sourceToStr p.source,
    doi := p.doi, arxiv_id := p.arxiv_id, authors := p.authors,
    venue := p.venue, year := p.year, citation_count := p.citation_count,
    influential_citation_count := p.influential_citation_count,
    abstract := p.abstract, notes := p.notes, tags := p.tags,
    status := statusToStr p.status,
    exclusion_type := p.exclusion_type.map exclusionToStr,
    snowball_iteration := p.snowball_iteration,
    references := p.references, citations := p.citations,
    raw_data := p.raw_data }

/-- Modelled from the spec and the shipped model tests:
`Paper.model_validate` on a JSON-mode dump — the enum strings are
parsed back, failure on an unknown enum value. No cross-field
validation is performed (in particular `exclusion_type` is accepted
independently of `status`, as the shipped serialization test
exercises). -/
def validatePaper (pj : PaperJson) : Option Paper :=
  match statusFromStr pj.status with
  | none => none
  | some st =>
    match sourceFromStr pj.source with
    | none => none
    | some src =>
      let exParsed : Option (Option ExclusionType) :=
        match pj.exclusion_type with
        | none => some none
        | some es =>
          match exclusionFromStr es with
          | none => none
          | some ex => some (some ex)
      match exParsed with
      | none => none
      | some ex =>
        some
          { id := pj.id, title := pj.title, source := src,
            doi := pj.doi, arxiv_id := pj.arxiv_id, authors := pj.authors,
            venue := pj.venue, year := pj.year,
            citation_count := pj.citation_count,
            influential_citation_count := pj.influential_citation_count,
            abstract := pj.abstract, notes := pj.notes, tags := pj.tags,
            status := st, exclusion_type := ex,
            snowball_iteration := pj.snowball_iteration,
            references := pj.references, citations := pj.citations,
            raw_data := pj.raw_data }

/-- JSON-mode dump of a ReviewProject: the `iteration_stats` mapping
gets string keys. -/
structure ProjectJson where
  name : Str
  description : Str
  max_iterations : Nat
  current_iteration : Nat
  filter_criteria : FilterCriteria
  seed_paper_ids : List Str
  iteration_stats : List (Str × IterationStats)
  created_at : Str
deriving DecidableEq, Repr

/-- Modelled from the spec and the shipped model tests:
`ReviewProject.model_dump(mode=json)` — the integer keys of
`iteration_stats` are rendered as decimal strings. -/
def dumpProject (pr : ReviewProject) : ProjectJson :=
  { name := pr.name, description := pr.description,
    max_iterations := pr.max_iterations,
    current_iteration := pr.current_iteration,
    filter_criteria := pr.filter_criteria,
    seed_paper_ids := pr.seed_paper_ids,
    iteration_stats := pr.iteration_stats.map (fun kv => (natKeyStr kv.1, kv.2)),
    created_at := pr.created_at }

def parseStatsEntries : List (Str × IterationStats) →
    Option (List (Nat × IterationStats))
  | [] => some []
  | (k, v) :: rest =>
    match keyStrNat k with
    | none => none
    | some n =>
      match parseStatsEntries rest with
      | none => none
      | some tail => some ((n, v) :: tail)

/-- Modelled from the spec and the shipped model tests:
`ReviewProject.model_validate` on a JSON-mode dump — the string keys of
`iteration_stats` are parsed back to integers, failure on a
non-numeric key. -/
def validateProject (pj : ProjectJson) : Option ReviewProject :=
  match parseStatsEntries pj.iteration_stats with
  | none => none
  | some entries =>
    some
      { name := pj.name, description := pj.description,
        max_iterations := pj.max_iterations,
        current_iteration := pj.current_iteration,
        filter_criteria := pj.filter_criteria,
        seed_paper_ids := pj.seed_paper_ids,
        iteration_stats := entries,
        created_at := pj.created_at }

/- ===================== SnowballEngine ===================== -/

def maxOptNat : Option Nat → Option Nat → Option Nat
  | none, b => b
  | some a, none => some a
  | some a, some b => some (max a b)

/-- Modelled from the spec: the duplicate-merge policy of the
IdentityResolver — keep the existing project paper, fill only fields
that are currently empty, take the maximum of citation counts, and
never touch the reviewer-curated fields (`status`, `exclusion_type`,
`notes`, `tags`) nor the immutable `source` and `snowball_iteration`. -/
def mergeInto (q : Paper) (r : Record) : Paper :=
  { q with
    doi := q.doi.orElse (fun _ => r.doi),
    arxiv_id := q.arxiv_id.orElse (fun _ => r.arxiv_id),
    year := q.year.orElse (fun _ => r.year),
    abstract := q.abstract.orElse (fun _ => r.abstract),
    citation_count := maxOptNat q.citation_count r.citation_count,
    influential_citation_count :=
      maxOptNat q.influential_citation_count r.influential_citation_count }

/-- Modelled from the spec: creation of a new project Paper from a
fetched record during `run_iteration` expansion — status pending, the
tagged backward/forward source, and the discovery iteration. -/
def paperOfRecord (n : Nat) (src : PaperSource) (iter : Nat) (r : Record) : Paper :=
  { id := "paper-".data ++ natKeyStr n, title := r.title, source := src,
    doi := r.doi, arxiv_id := r.arxiv_id, year := r.year,
    citation_count := r.citation_count,
    influential_citation_count := r.influential_citation_count,
    abstract := r.abstract, status := PaperStatus.pending,
    exclusion_type := none, snowball_iteration := iter }

/-- Modelled from the spec: the serialized create-or-merge pass of
`run_iteration` (step 3) — candidates are processed one at a time
against all papers accumulated so far (pre-existing and newly created
alike); a candidate whose canonical key matches some accumulated paper
is merged into it without creating a record, otherwise a new pending
paper is created and appended to the new-papers accumulator. Returns
the merged pre-existing papers and the newly created papers. -/
def mergeCandidates (iter : Nat) :
    List (Record × PaperSource) → List Paper → List Paper → Nat →
      List Paper × List Paper
  | [], olds, news, _ => (olds, news)
  | (r, src) :: rest, olds, news, n =>
    if (olds ++ news).any (fun q => paperKey q == canonicalize r) then
      mergeCandidates iter rest
        (olds.map (fun q => if paperKey q == canonicalize r then mergeInto q r else q))
        (news.map (fun q => if paperKey q == canonicalize r then mergeInto q r else q))
        n
    else
      mergeCandidates iter rest olds (news ++ [ paperOfRecord n src iter r ]) (n + 1)

/-- Modelled from the spec: step 4 of `run_iteration` — FilterEngine
classification of one newly created paper: AutoExclude sets
status excluded and exclusion_type auto, ForReview leaves the paper
pending. -/
def applyFilter (c : FilterCriteria) (p : Paper) : Paper :=
  match classify p c with
  | Verdict.AutoExclude =>
    { p with status := PaperStatus.excluded,
             exclusion_type := some ExclusionType.auto }
  | Verdict.ForReview => p

/-- Deterministic fetch oracle standing for the ProviderAggregator:
backward references and forward citations per frontier paper. -/
structure FetchEnv where
  refs : Paper → List Record
  cites : Paper → List Record

/-- In-memory state owned by the engine: the project and its paper
set. -/
structure ProjectState where
  project : ReviewProject
  papers : List Paper

/-- Statistics mapping returned to the caller by
`run_snowball_iteration`; the post-dedup discovery count is returned
under the key `added` (the key the CLI and `example.py` read). -/
structure RunStats where
  added : Nat
  backward : Nat
  forward : Nat
  auto_excluded : Nat
  for_review : Nat
deriving DecidableEq, Repr

/-- Result of one `run_snowball_iteration` call. -/
structure RunResult where
  state : ProjectState
  stats : RunStats
  newPapers : List Paper

/-- Modelled from the spec: frontier selection (step 1) — papers with
status included, plus the seed set when `current_iteration` is zero. -/
def frontierOf (st : ProjectState) : List Paper :=
  if st.project.current_iteration = 0 then
    st.papers.filter
      (fun p => p.status == PaperStatus.included ||
        st.project.seed_paper_ids.contains p.id)
  else
    st.papers.filter (fun p => p.status == PaperStatus.included)

/-- Fetched neighbor candidates of one iteration, each tagged with the
source direction it arrived from (step 2; fetch order is per frontier
paper, references before citations). -/
def candidatesOf (env : FetchEnv) (st : ProjectState) : List (Record × PaperSource) :=
  (frontierOf st).flatMap
    (fun f => (env.refs f).map (fun r => (r, PaperSource.backward)) ++
      (env.cites f).map (fun r => (r, PaperSource.forward)))

/-- Modelled from the spec: `run_snowball_iteration(project)` of the
SnowballEngine (module not in the repository snapshot) — frontier
selection, fetch via the aggregator oracle, serialized create-or-merge,
FilterEngine classification of the newly created papers, iteration
accounting, incrementing `current_iteration` and recording an
IterationStats entry. The statistics mapping is returned under the
keys the CLI reads (`added`, `backward`, `forward`, `auto_excluded`,
`for_review`). -/
def runIteration (env : FetchEnv) (st : ProjectState) : RunResult :=
  let proj := st.project
  let newIter := proj.current_iteration + 1
  let merged := mergeCandidates newIter (candidatesOf env st) st.papers [] 0
  let newPapers := merged.2.map (applyFilter proj.filter_criteria)
  let papers := merged.1 ++ newPapers
  let stats : RunStats :=
    { added := newPapers.length,
      backward := newPapers.countP (fun p => p.source == PaperSource.backward),
      forward := newPapers.countP (fun p => p.source == PaperSource.forward),
      auto_excluded := newPapers.countP (fun p => p.status == PaperStatus.excluded),
      for_review := newPapers.countP (fun p => p.status == PaperStatus.pending) }
  let entry : IterationStats :=
    { iteration := newIter, discovered := stats.added,
      backward := stats.backward, forward := stats.forward,
      auto_excluded := stats.auto_excluded, for_review := stats.for_review }
  let proj' :=
    { proj with current_iteration := newIter,
                iteration_stats := (newIter, entry) :: proj.iteration_stats }
  { state := { project := proj', papers := papers },
    stats := stats, newPapers := newPapers }

/-- Look up the IterationStats recorded for iteration `i`. -/
def lookupStats (proj : ReviewProject) (i : Nat) : Option IterationStats :=
  (proj.iteration_stats.find? (fun kv => kv.1 == i)).map (fun kv => kv.2)

/-- Modelled from the spec: `should_continue_snowballing(project)` of
the SnowballEngine — true iff the iteration cap is not reached and the
previous iteration (when one has been recorded) discovered at least one
paper. -/
def should_continue_snowballing (proj : ReviewProject) : Bool :=
  decide (proj.current_iteration < proj.max_iterations) &&
    (match lookupStats proj proj.current_iteration with
     | none => true
     | some s => decide (0 < s.discovered))

/- ===================== Claim C3 ===================== -/

/-- C3: the filter's year rule uses inclusive bounds — a paper whose
year equals `min_year` (or `max_year`, the other bound permitting) is
not excluded by the year rule — and the citation-count rule fires only
when `citation_count` is present: a paper with no citation count is
never auto-excluded by the `min_citations` rule. -/
theorem c3_filter_boundary (p : Paper) (c : FilterCriteria) :
    (∀ y : Int, p.year = some y → c.min_year = some y →
      (∀ m : Int, c.max_year = some m → y ≤ m) → yearRule p c = false) ∧
    (∀ y : Int, p.year = some y → c.max_year = some y →
      (∀ m : Int, c.min_year = some m → m ≤ y) → yearRule p c = false) ∧
    (p.citation_count = none → minCitationsRule p c = false) := by
  refine ⟨?_, ?_, ?_⟩
  · intro y hy hmin hmax
    simp only [yearRule, hy, hmin, Bool.or_eq_false_iff,
      decide_eq_false_iff_not, lt_irrefl, not_false_eq_true, true_and]
    cases hM : c.max_year with
    | none => trivial
    | some m =>
      simp only [decide_eq_false_iff_not, not_lt]
      exact hmax m hM
  · intro y hy hmax hmin
    simp only [yearRule, hy, hmax, Bool.or_eq_false_iff]
    constructor
    · cases hm : c.min_year with
      | none => trivial
      | some m =>
        simp only [decide_eq_false_iff_not, not_lt]
        exact hmin m hm
    · simp only [decide_eq_false_iff_not, lt_irrefl, not_false_eq_true]
  · intro hcc
    cases hm : c.min_citations with
    | none => simp [minCitationsRule, hcc]
    | some m => simp [minCitationsRule, hcc]

def c3Paper : Paper :=
  { id := "p1".data, title := "boundary paper".data,
    source := PaperSource.backward, year := some 2020 }

def c3Criteria : FilterCriteria :=
  { min_year := some 2020, max_year := some 2024, min_citations := some 10 }

/-- Witness for C3 at the boundary inputs: year 2020 with
min_year 2020 passes the year rule, and a missing citation count never
fires the citation rule. -/
theorem c3_filter_boundary_witness :
    yearRule c3Paper c3Criteria = false ∧
      minCitationsRule c3Paper c3Criteria = false := by
  constructor
  · refine (c3_filter_boundary c3Paper c3Criteria).1 2020 rfl rfl ?_
    intro m hm
    have : (2024 : Int) = m := by
      have h : some (2024 : Int) = some m := hm
      exact Option.some.inj h
    omega
  · exact (c3_filter_boundary c3Paper c3Criteria).2.2 rfl

/- ===================== Claim C7 ===================== -/

theorem append_prefix_comparable {a t w s : Str} (h : a ++ t = w ++ s) :
    a <+: w ∨ w <+: a := by
  rcases List.append_eq_append_iff.mp h with ⟨a', rfl, _⟩ | ⟨c', rfl, _⟩
  · exact Or.inl ⟨a', rfl⟩
  · exact Or.inr ⟨c', rfl⟩

theorem wraps_incomparable :
    ∀ a ∈ doiWraps, ∀ b ∈ doiWraps, a ≠ b → ¬ a <+: b := by decide

theorem lowerStr_wraps : ∀ w ∈ doiWraps, lowerStr w = w := by decide

theorem stripWraps_wrapped : ∀ (L : List Str) (w c : Str),
    w ∈ L →
    (∀ a ∈ L, ∀ b ∈ L, a ≠ b → ¬ a <+: b) →
    (∀ a ∈ L, ¬ a <+: c) →
    stripWraps L (w ++ c) = c := by
  intro L
  induction L with
  | nil => intro w c hw _ _; exact absurd hw (List.not_mem_nil w)
  | cons a L' ih =>
    intro w c hw hpair hclean
    by_cases haw : a = w
    · subst haw
      show (if a <+: a ++ c then (a ++ c).drop a.length else stripWraps L' (a ++ c)) = c
      rw [if_pos (List.prefix_append a c), List.drop_left]
    · have hnp : ¬ a <+: w ++ c := by
        intro hp
        obtain ⟨t, ht⟩ := hp
        rcases append_prefix_comparable ht with h | h
        · exact hpair a (List.mem_cons_self a L') w hw haw h
        · exact hpair w hw a (List.mem_cons_self a L') (Ne.symm haw) h
      show (if a <+: w ++ c then (w ++ c).drop a.length else stripWraps L' (w ++ c)) = c
      rw [if_neg hnp]
      have hwL' : w ∈ L' := by
        rcases List.mem_cons.mp hw with h | h
        · exact absurd h.symm haw
        · exact h
      exact ih w c hwL'
        (fun x hx y hy => hpair x (List.mem_cons_of_mem a hx) y (List.mem_cons_of_mem a hy))
        (fun x hx => hclean x (List.mem_cons_of_mem a hx))

theorem stripWraps_clean : ∀ (L : List Str) (c : Str),
    (∀ a ∈ L, ¬ a <+: c) → stripWraps L c = c := by
  intro L
  induction L with
  | nil => intro c _; rfl
  | cons a L' ih =>
    intro c hclean
    show (if a <+: c then c.drop a.length else stripWraps L' c) = c
    rw [if_neg (hclean a (List.mem_cons_self a L'))]
    exact ih c (fun x hx => hclean x (List.mem_cons_of_mem a hx))

theorem normalizeDoi_wrapped (w c : Str) (hw : w ∈ doiWraps ∨ w = [])
    (hclean : ∀ a ∈ doiWraps, ¬ a <+: lowerStr c) :
    normalizeDoi (w ++ c) = lowerStr c := by
  unfold normalizeDoi
  have hsplit : lowerStr (w ++ c) = lowerStr w ++ lowerStr c :=
    List.map_append Char.toLower w c
  rw [hsplit]
  rcases hw with hw | rfl
  · rw [lowerStr_wraps w hw]
    exact stripWraps_wrapped doiWraps w (lowerStr c) hw wraps_incomparable hclean
  · show stripWraps doiWraps ([] ++ lowerStr c) = lowerStr c
    rw [List.nil_append]
    exact stripWraps_clean doiWraps (lowerStr c) hclean

/-- C7: canonicalization is stable under DOI formatting variants — two
records whose DOIs share the same core identifier (up to letter case)
under possibly different URL-prefix or scheme wrappings receive the
same canonical key (the core itself not being wrapped). -/
theorem c7_doi_canonicalization (r1 r2 : Record) (w1 w2 c1 c2 : Str)
    (hw1 : w1 ∈ doiWraps ∨ w1 = []) (hw2 : w2 ∈ doiWraps ∨ w2 = [])
    (h1 : r1.doi = some (w1 ++ c1)) (h2 : r2.doi = some (w2 ++ c2))
    (hcore : lowerStr c1 = lowerStr c2)
    (hclean : ∀ a ∈ doiWraps, ¬ a <+: lowerStr c1) :
    canonicalize r1 = canonicalize r2 := by
  have hclean2 : ∀ a ∈ doiWraps, ¬ a <+: lowerStr c2 := by
    rw [← hcore]; exact hclean
  unfold canonicalize
  rw [h1, h2]
  simp only []
  rw [normalizeDoi_wrapped w1 c1 hw1 hclean,
    normalizeDoi_wrapped w2 c2 hw2 hclean2, hcore]

def c7Rec1 : Record := { title := "t".data, doi := some ( "10.1234/ABC".data) }

def c7Rec2 : Record :=
  { title := "t".data, doi := some ( "https://doi.org/10.1234/abc".data) }

/-- Witness for C7: a bare upper-case DOI and the same DOI lower-case
behind the `https://doi.org/` wrapping canonicalize identically. -/
theorem c7_doi_canonicalization_witness : canonicalize c7Rec1 = canonicalize c7Rec2 :=
  c7_doi_canonicalization c7Rec1 c7Rec2 [] ( "https://doi.org/".data)
    ( "10.1234/ABC".data) ( "10.1234/abc".data)
    (Or.inr rfl) (Or.inl (by decide)) rfl (by decide) (by decide) (by decide)

/- ===================== Claims C4, C5, C8 ===================== -/

def scPaperA : Paper :=
  { id := "p1".data, title := "Deep Learning for Medical Image Analysis".data,
    source := PaperSource.seed }

def scPaperB : Paper :=
  { id := "p2".data, title := "Natural Language Processing Survey".data,
    source := PaperSource.backward }

/-- C4: `score_papers` never raises (it is a total function of its
inputs): on an empty paper list it returns the empty list, and on any
internal error — an absent provider response — it returns one result
per input paper with score 0 for every paper. -/
theorem c4_scorer_error_handling (query : Str) (resp : Option (List ℚ))
    (papers : List Paper) :
    score_papers query resp [] = [] ∧
    (score_papers query none papers).length = papers.length ∧
    (∀ pr ∈ score_papers query none papers, pr.2 = 0) := by
  refine ⟨?_, ?_, ?_⟩
  · cases resp <;> rfl
  · simp [score_papers]
  · intro pr hpr
    simp only [score_papers, List.mem_map] at hpr
    obtain ⟨p, _, rfl⟩ := hpr
    rfl

/-- Witness for C4: on an API error every returned pair carries
score 0. -/
theorem c4_scorer_error_handling_witness :
    ((scPaperA, (0 : ℚ)) : Paper × ℚ).2 = 0 :=
  (c4_scorer_error_handling [] none [ scPaperA ]).2.2 (scPaperA, 0) (by decide)

/-- C5: `score_papers` returns exactly one pair per input paper, every
returned score lies in the closed interval [0, 1], the pair at each
position carries that position's paper with its clamped raw score, and
clamping sends an out-of-range raw score to the nearest bound. -/
theorem c5_scorer_range (query : Str) (resp : Option (List ℚ))
    (papers : List Paper) :
    (score_papers query resp papers).length = papers.length ∧
    (∀ pr ∈ score_papers query resp papers, 0 ≤ pr.2 ∧ pr.2 ≤ 1) ∧
    (∀ raw i, resp = some raw →
      (score_papers query resp papers).get? i =
        (papers.get? i).map (fun p => (p, clampScore ((raw.get? i).getD 0)))) ∧
    (∀ s : ℚ, 1 ≤ s → clampScore s = 1) ∧
    (∀ s : ℚ, s ≤ 0 → clampScore s = 0) := by
  refine ⟨?_, ?_, ?_, ?_, ?_⟩
  · cases resp <;> simp [score_papers]
  · intro pr hpr
    cases resp with
    | none =>
      simp only [score_papers, List.mem_map] at hpr
      obtain ⟨p, _, rfl⟩ := hpr
      norm_num
    | some raw =>
      simp only [score_papers, List.mem_map] at hpr
      obtain ⟨ip, _, rfl⟩ := hpr
      constructor
      · exact le_max_left 0 _
      · exact max_le (by norm_num) (min_le_left 1 _)
  · intro raw i hresp
    subst hresp
    simp only [score_papers, List.get?_map, List.get?_enum]
    cases papers.get? i <;> rfl
  · intro s hs
    unfold clampScore
    rw [min_eq_left hs]
    exact max_eq_right (by norm_num)
  · intro s hs
    unfold clampScore
    rw [min_eq_right (le_trans hs (by norm_num)), max_eq_left hs]

/-- Witness for C5: the raw response scores 3/2 and -3/10 appear
clamped to 1 and 0. -/
theorem c5_scorer_range_witness :
    (score_papers [] (some [ (3 : ℚ)/2, -(3 : ℚ)/10 ]) [ scPaperA, scPaperB ]).get? 0 =
      some (scPaperA, clampScore ((3 : ℚ)/2)) ∧ clampScore ((3 : ℚ)/2) = 1 := by
  constructor
  · have h := (c5_scorer_range [] (some [ (3 : ℚ)/2, -(3 : ℚ)/10 ])
      [ scPaperA, scPaperB ]).2.2.1 [ (3 : ℚ)/2, -(3 : ℚ)/10 ] 0 rfl
    simpa using h
  · exact (c5_scorer_range [] (some [ (3 : ℚ)/2, -(3 : ℚ)/10 ])
      [ scPaperA, scPaperB ]).2.2.2.1 ((3 : ℚ)/2) (by norm_num)

/-- C8: with a non-empty paper list the progress callback is invoked
at least once and its final invocation reports `current == total` with
`total` the number of input papers. -/
theorem c8_progress_callback (query : Str) (resp : Option (List ℚ))
    (papers : List Paper) (hne : papers ≠ []) :
    (score_papers_run query resp papers).2 ≠ [] ∧
    (score_papers_run query resp papers).2.getLast? =
      some (papers.length, papers.length) := by
  obtain ⟨a, t, rfl⟩ : ∃ a t, papers = a :: t := by
    cases papers with
    | nil => exact absurd rfl hne
    | cons a t => exact ⟨a, t, rfl⟩
  constructor
  · simp [score_papers_run, progressCalls, List.range_succ]
  · show (progressCalls (a :: t)).getLast? = _
    unfold progressCalls
    rw [List.length_cons, List.range_succ, List.map_append, List.map_cons,
      List.map_nil, List.getLast?_concat]

/-- Witness for C8: scoring one paper ends with the callback invocation
(1, 1). -/
theorem c8_progress_callback_witness :
    (score_papers_run [] none [ scPaperA ]).2.getLast? = some (1, 1) :=
  (c8_progress_callback [] none [ scPaperA ] (by decide)).2

/- ===================== Claim C10 ===================== -/

/-- C10: the `get_scorer` factory returns the TF-IDF scorer for method
"tfidf" and the LLM scorer (with the forwarded model option) for
method "llm", and for any other method it raises a ValueError whose
message names the method and lists both known methods. -/
theorem c10_get_scorer (method m : Str) :
    get_scorer ( "tfidf".data) m = Except.ok Scorer.tfidf ∧
    get_scorer ( "llm".data) m = Except.ok (Scorer.llm m) ∧
    (method ≠ "tfidf".data → method ≠ "llm".data →
      ∃ msg, get_scorer method m = Except.error msg ∧
        method <:+: msg ∧ ( "tfidf".data) <:+: msg ∧ ( "llm".data) <:+: msg) := by
  refine ⟨rfl, rfl, ?_⟩
  intro h1 h2
  refine ⟨ "Unknown scoring method: ".data ++ method ++
    ". Available methods: tfidf, llm".data, ?_, ?_, ?_, ?_⟩
  · unfold get_scorer
    rw [if_neg h1, if_neg h2]
  · exact ⟨ "Unknown scoring method: ".data,
      ". Available methods: tfidf, llm".data, by simp⟩
  · have hsub : ( "tfidf".data) <:+: ( ". Available methods: tfidf, llm".data) := by
      decide
    have hsuf : ( ". Available methods: tfidf, llm".data) <:+:
        ( "Unknown scoring method: ".data ++ method ++
          ". Available methods: tfidf, llm".data) :=
      ⟨ "Unknown scoring method: ".data ++ method, [], by simp⟩
    exact hsub.trans hsuf
  · have hsub : ( "llm".data) <:+: ( ". Available methods: tfidf, llm".data) := by
      decide
    have hsuf : ( ". Available methods: tfidf, llm".data) <:+:
        ( "Unknown scoring method: ".data ++ method ++
          ". Available methods: tfidf, llm".data) :=
      ⟨ "Unknown scoring method: ".data ++ method, [], by simp⟩
    exact hsub.trans hsuf

/-- Witness for C10: the unknown method "invalid_method" yields the
ValueError message naming it and listing tfidf and llm. -/
theorem c10_get_scorer_witness :
    ∃ msg, get_scorer ( "invalid_method".data) ( "gpt-4".data) = Except.error msg ∧
      ( "invalid_method".data) <:+: msg ∧ ( "tfidf".data) <:+: msg ∧
      ( "llm".data) <:+: msg :=
  (c10_get_scorer ( "invalid_method".data) ( "gpt-4".data)).2.2
    (by decide) (by decide)

/- ===================== Claim C9 ===================== -/

theorem statusFromStr_statusToStr (s : PaperStatus) :
    statusFromStr (statusToStr s) = some s := by
  cases s <;> rfl

theorem sourceFromStr_sourceToStr (s : PaperSource) :
    sourceFromStr (sourceToStr s) = some s := by
  cases s <;> rfl

theorem exclusionFromStr_exclusionToStr (e : ExclusionType) :
    exclusionFromStr (exclusionToStr e) = some e := by
  cases e <;> rfl

theorem parseStatsEntries_dump (l : List (Nat × IterationStats)) :
    parseStatsEntries (l.map (fun kv => (natKeyStr kv.1, kv.2))) = some l := by
  induction l with
  | nil => rfl
  | cons kv t ih =>
    simp only [List.map_cons, parseStatsEntries, keyStrNat_natKeyStr, ih]

/-- C9: JSON-mode serialization followed by validation is the identity
on Papers and on ReviewProjects: the enum fields survive their string
rendering and the per-iteration statistics survive the integer-to-string
key rendering, so every field (in particular id, title, status,
exclusion_type, current_iteration and the iteration statistics) is
restored. -/
theorem c9_serialization_roundtrip :
    (∀ p : Paper, validatePaper (dumpPaper p) = some p) ∧
    (∀ pr : ReviewProject, validateProject (dumpProject pr) = some pr) := by
  constructor
  · intro p
    obtain ⟨pid, ptitle, psrc, pdoi, parx, pauth, pven, pyear, pcc, picc,
      pabs, pnotes, ptags, pstat, pexc, pit, prefs, pcits, praw⟩ := p
    simp only [validatePaper, dumpPaper, statusFromStr_statusToStr,
      sourceFromStr_sourceToStr]
    cases pexc with
    | none => rfl
    | some e =>
      simp only [Option.map_some', exclusionFromStr_exclusionToStr]
  · intro pr
    obtain ⟨rname, rdesc, rmax, rcur, rcrit, rseeds, rstats, rcreated⟩ := pr
    simp only [validateProject, dumpProject, parseStatsEntries_dump]

/- ===================== Claim C6 ===================== -/

def c6Paper : Paper :=
  { id := "test-id".data, title := "Test Title".data,
    source := PaperSource.seed,
    exclusion_type := some ExclusionType.auto }

/-- C6 counterexample: the Paper data model performs no cross-field
validation, so a paper whose `exclusion_type` is set to auto while its
status is the default pending is accepted (and survives a
serialization round-trip) — exactly the paper the shipped
serialization test constructs. This refutes the claim that
`exclusion_type` is set only when status is excluded in every
reachable state. -/
theorem c6_pending_auto_counterexample :
    validatePaper (dumpPaper c6Paper) = some c6Paper ∧
    c6Paper.exclusion_type = some ExclusionType.auto ∧
    c6Paper.status = PaperStatus.pending ∧
    c6Paper.status ≠ PaperStatus.excluded := by
  refine ⟨by decide, rfl, rfl, by decide⟩

/- ===================== Engine lemmas ===================== -/

/-- Invariant of papers created during one iteration: pending status,
no exclusion type yet, a backward/forward source tag and the discovery
iteration number. -/
def freshPaper (iter : Nat) (p : Paper) : Prop :=
  p.status = PaperStatus.pending ∧ p.exclusion_type = none ∧
    (p.source = PaperSource.backward ∨ p.source = PaperSource.forward) ∧
    p.snowball_iteration = iter

theorem freshPaper_merge (iter : Nat) (r : Record) (k : CanonicalKey) (q : Paper)
    (h : freshPaper iter q) :
    freshPaper iter (if paperKey q == k then mergeInto q r else q) := by
  by_cases hk : (paperKey q == k) = true
  · rw [if_pos hk]
    exact h
  · rw [if_neg hk]
    exact h

theorem mergeCandidates_fresh (iter : Nat) :
    ∀ (cands : List (Record × PaperSource)) (olds news : List Paper) (n : Nat),
      (∀ x ∈ cands, x.2 = PaperSource.backward ∨ x.2 = PaperSource.forward) →
      (∀ q ∈ news, freshPaper iter q) →
      ∀ q ∈ (mergeCandidates iter cands olds news n).2, freshPaper iter q := by
  intro cands
  induction cands with
  | nil => intro olds news n _ hnews q hq; exact hnews q hq
  | cons x rest ih =>
    intro olds news n htags hnews q hq
    obtain ⟨r, src⟩ := x
    have htags' : ∀ x ∈ rest,
        x.2 = PaperSource.backward ∨ x.2 = PaperSource.forward :=
      fun x hx => htags x (List.mem_cons_of_mem _ hx)
    simp only [mergeCandidates] at hq
    by_cases hdup :
        ((olds ++ news).any (fun q => paperKey q == canonicalize r)) = true
    · rw [if_pos hdup] at hq
      refine ih _ _ n htags' ?_ q hq
      intro q' hq'
      rw [List.mem_map] at hq'
      obtain ⟨q0, hq0, rfl⟩ := hq'
      exact freshPaper_merge iter r _ q0 (hnews q0 hq0)
    · rw [if_neg hdup] at hq
      refine ih _ _ (n + 1) htags' ?_ q hq
      intro q' hq'
      rcases List.mem_append.mp hq' with h | h
      · exact hnews q' h
      · rcases List.mem_singleton.mp h with rfl
        exact ⟨rfl, rfl, htags (r, src) (List.mem_cons_self _ _), rfl⟩

theorem candidatesOf_tags (env : FetchEnv) (st : ProjectState) :
    ∀ x ∈ candidatesOf env st,
      x.2 = PaperSource.backward ∨ x.2 = PaperSource.forward := by
  intro x hx
  unfold candidatesOf at hx
  rw [List.mem_flatMap] at hx
  obtain ⟨f, _, hx⟩ := hx
  rcases List.mem_append.mp hx with h | h
  · rw [List.mem_map] at h
    obtain ⟨r, _, rfl⟩ := h
    exact Or.inl rfl
  · rw [List.mem_map] at h
    obtain ⟨r, _, rfl⟩ := h
    exact Or.inr rfl

theorem applyFilter_shape (c : FilterCriteria) (iter : Nat) (q : Paper)
    (h : freshPaper iter q) :
    (applyFilter c q).source = q.source ∧
    ((applyFilter c q).status = PaperStatus.excluded ∧
        (applyFilter c q).exclusion_type = some ExclusionType.auto ∨
      (applyFilter c q).status = PaperStatus.pending ∧
        (applyFilter c q).exclusion_type = none) := by
  unfold applyFilter
  cases classify q c with
  | AutoExclude => exact ⟨rfl, Or.inl ⟨rfl, rfl⟩⟩
  | ForReview => exact ⟨rfl, Or.inr ⟨h.1, h.2.1⟩⟩

theorem countP_partition {α : Type} (p q : α → Bool) :
    ∀ l : List α,
      (∀ a ∈ l, (p a = true ∧ q a = false) ∨ (p a = false ∧ q a = true)) →
      l.countP p + l.countP q = l.length := by
  intro l
  induction l with
  | nil => intro _; rfl
  | cons a t ih =>
    intro h
    have ht := ih (fun x hx => h x (List.mem_cons_of_mem a hx))
    rcases h a (List.mem_cons_self a t) with ⟨h1, h2⟩ | ⟨h1, h2⟩ <;>
      simp [List.countP_cons, h1, h2] <;> omega

/- ===================== Claim C1 ===================== -/

/-- C1: for every completed snowball iteration, the statistics returned
to the caller satisfy `added = backward + forward` (papers counted after
deduplication; `added` is the key the CLI and `example.py` read as the
discovery count) and `auto_excluded + for_review = added`. -/
theorem c1_iteration_accounting (env : FetchEnv) (st : ProjectState) :
    (runIteration env st).stats.added =
      (runIteration env st).stats.backward +
        (runIteration env st).stats.forward ∧
    (runIteration env st).stats.auto_excluded +
        (runIteration env st).stats.for_review =
      (runIteration env st).stats.added := by
  have hfresh := mergeCandidates_fresh (st.project.current_iteration + 1)
    (candidatesOf env st) st.papers [] 0 (candidatesOf_tags env st)
    (fun q hq => absurd hq (List.not_mem_nil q))
  have hprops : ∀ q' ∈ (mergeCandidates (st.project.current_iteration + 1)
        (candidatesOf env st) st.papers [] 0).2.map
        (applyFilter st.project.filter_criteria),
      (q'.source = PaperSource.backward ∨ q'.source = PaperSource.forward) ∧
      (q'.status = PaperStatus.excluded ∨ q'.status = PaperStatus.pending) := by
    intro q' hq'
    rw [List.mem_map] at hq'
    obtain ⟨q0, hq0, rfl⟩ := hq'
    have hf := hfresh q0 hq0
    have hs := applyFilter_shape st.project.filter_criteria _ q0 hf
    refine ⟨?_, ?_⟩
    · rw [hs.1]; exact hf.2.2.1
    · rcases hs.2 with ⟨h1, _⟩ | ⟨h1, _⟩
      · exact Or.inl h1
      · exact Or.inr h1
  constructor
  · refine (countP_partition (fun p : Paper => p.source == PaperSource.backward)
      (fun p : Paper => p.source == PaperSource.forward) _ ?_).symm
    intro a ha
    rcases (hprops a ha).1 with h | h
    · exact Or.inl
        ⟨by show (a.source == PaperSource.backward) = true; rw [h]; rfl,
         by show (a.source == PaperSource.forward) = false; rw [h]; rfl⟩
    · exact Or.inr
        ⟨by show (a.source == PaperSource.backward) = false; rw [h]; rfl,
         by show (a.source == PaperSource.forward) = true; rw [h]; rfl⟩
  · refine countP_partition (fun p : Paper => p.status == PaperStatus.excluded)
      (fun p : Paper => p.status == PaperStatus.pending) _ ?_
    intro a ha
    rcases (hprops a ha).2 with h | h
    · exact Or.inl
        ⟨by show (a.status == PaperStatus.excluded) = true; rw [h]; rfl,
         by show (a.status == PaperStatus.pending) = false; rw [h]; rfl⟩
    · exact Or.inr
        ⟨by show (a.status == PaperStatus.excluded) = false; rw [h]; rfl,
         by show (a.status == PaperStatus.pending) = true; rw [h]; rfl⟩

/- ===================== Claim C2 ===================== -/

theorem should_continue_iff (proj : ReviewProject) (s : IterationStats)
    (h : lookupStats proj proj.current_iteration = some s) :
    should_continue_snowballing proj = true ↔
      (proj.current_iteration < proj.max_iterations ∧ 0 < s.discovered) := by
  unfold should_continue_snowballing
  rw [h]
  simp [Bool.and_eq_true, decide_eq_true_eq]

theorem lookup_cons_self (i : Nat) (e : IterationStats)
    (rest : List (Nat × IterationStats)) :
    (List.find? (fun kv => kv.1 == i) ((i, e) :: rest)).map
      (fun kv => kv.2) = some e := by
  simp

theorem runIteration_entry (env : FetchEnv) (st : ProjectState) :
    lookupStats (runIteration env st).state.project
        (runIteration env st).state.project.current_iteration =
      some { iteration := st.project.current_iteration + 1,
             discovered := (runIteration env st).stats.added,
             backward := (runIteration env st).stats.backward,
             forward := (runIteration env st).stats.forward,
             auto_excluded := (runIteration env st).stats.auto_excluded,
             for_review := (runIteration env st).stats.for_review } := by
  simp only [runIteration, lookupStats]
  exact lookup_cons_self _ _ _

/-- C2: the engine's should-continue query is true iff the iteration
cap is not reached and the previously recorded iteration discovered at
least one paper; in particular, an iteration that discovers zero new
papers makes it false even when the cap is not reached. -/
theorem c2_should_continue :
    (∀ (proj : ReviewProject) (s : IterationStats),
        lookupStats proj proj.current_iteration = some s →
        (should_continue_snowballing proj = true ↔
          (proj.current_iteration < proj.max_iterations ∧ 0 < s.discovered))) ∧
    (∀ (env : FetchEnv) (st : ProjectState),
        (runIteration env st).stats.added = 0 →
        should_continue_snowballing (runIteration env st).state.project = false) := by
  constructor
  · exact should_continue_iff
  · intro env st h
    have hiff := should_continue_iff _ _ (runIteration_entry env st)
    rw [h] at hiff
    cases hsc : should_continue_snowballing (runIteration env st).state.project with
    | false => rfl
    | true =>
      have hcon := hiff.mp hsc
      simp at hcon

def c2Project : ReviewProject :=
  { name := "halting project".data, max_iterations := 5,
    current_iteration := 1,
    iteration_stats := [ (1, { iteration := 1, discovered := 0 }) ] }

def c2Env : FetchEnv := { refs := fun _ => [], cites := fun _ => [] }

def c2State : ProjectState :=
  { project := { name := "empty project".data, max_iterations := 5 },
    papers := [] }

/-- Witness for C2: with a recorded zero-discovery iteration the query
is characterized by the iff (its right side being false under the cap),
and running an iteration with an exhausted frontier makes the query
false although the cap is far from reached. -/
theorem c2_should_continue_witness :
    (should_continue_snowballing c2Project = true ↔ (1 < 5 ∧ 0 < 0)) ∧
    should_continue_snowballing (runIteration c2Env c2State).state.project = false :=
  ⟨c2_should_continue.1 c2Project { iteration := 1, discovered := 0 } rfl,
   c2_should_continue.2 c2Env c2State (by decide)⟩

/- ===================== Claim C6 (amended) ===================== -/

/-- C6 (amended): the data model itself does not tie `exclusion_type`
to `status` (see the counterexample), but every paper created and
classified by a snowball iteration satisfies the correspondence: its
exclusion type is set iff its status is excluded, and then the
exclusion type is auto. -/
theorem c6_engine_exclusion_invariant (env : FetchEnv) (st : ProjectState) :
    ∀ p ∈ (runIteration env st).newPapers,
      (p.exclusion_type ≠ none ↔ p.status = PaperStatus.excluded) ∧
      (p.status = PaperStatus.excluded →
        p.exclusion_type = some ExclusionType.auto) := by
  have hfresh := mergeCandidates_fresh (st.project.current_iteration + 1)
    (candidatesOf env st) st.papers [] 0 (candidatesOf_tags env st)
    (fun q hq => absurd hq (List.not_mem_nil q))
  intro p hp
  have hp' : p ∈ (mergeCandidates (st.project.current_iteration + 1)
      (candidatesOf env st) st.papers [] 0).2.map
      (applyFilter st.project.filter_criteria) := hp
  rw [List.mem_map] at hp'
  obtain ⟨q0, hq0, rfl⟩ := hp'
  have hf := hfresh q0 hq0
  have hs := applyFilter_shape st.project.filter_criteria _ q0 hf
  rcases hs.2 with ⟨h1, h2⟩ | ⟨h1, h2⟩
  · rw [h1, h2]
    refine ⟨⟨fun _ => rfl, fun _ => by simp⟩, fun _ => rfl⟩
  · rw [h1, h2]
    refine ⟨⟨fun hcon => absurd rfl hcon, fun hcon => by cases hcon⟩,
      fun hcon => by cases hcon⟩

def c6SeedPaper : Paper :=
  { id := "seed-1".data, title := "Seed".data, source := PaperSource.seed,
    status := PaperStatus.included }

def c6Env : FetchEnv :=
  { refs := fun _ => [ { title := "Old paper".data, year := some 2000 } ],
    cites := fun _ => [] }

def c6State : ProjectState :=
  { project := { name := "witness project".data,
                 filter_criteria := { min_year := some 2020 } },
    papers := [ c6SeedPaper ] }

def c6NewPaper : Paper :=
  { id := "paper-0".data, title := "Old paper".data,
    source := PaperSource.backward, year := some 2000,
    status := PaperStatus.excluded,
    exclusion_type := some ExclusionType.auto, snowball_iteration := 1 }

/-- Witness for C6 (amended): the 2000 paper discovered backward from
the seed is auto-excluded by the year rule, and it satisfies the
exclusion-type correspondence. -/
theorem c6_engine_exclusion_invariant_witness :
    (c6NewPaper.exclusion_type ≠ none ↔
      c6NewPaper.status = PaperStatus.excluded) ∧
    (c6NewPaper.status = PaperStatus.excluded →
      c6NewPaper.exclusion_type = some ExclusionType.auto) :=
  c6_engine_exclusion_invariant c6Env c6State c6NewPaper (by decide)
